import Mathlib

/-
Verification of the worker-pool and task-orchestration core of the
repository (src/server/modules/workers/trainingWorker.ts together with the
worker configuration and performance-monitor modules).  The TypeScript
classes are shallowly embedded as pure functions over explicit state:
JavaScript Maps and Sets become association lists and duplicate-free lists
in insertion order, timers become explicit callback functions, and the
promise tied to a submitted task is represented by the settlement events a
transition emits.
-/

namespace TrainingWorker

/-- The WorkerMessageType enum from types.ts (train, evaluate, predict,
stop, status, cleanup). -/
inductive WMType
  | train
  | evaluate
  | predict
  | stop
  | status
  | cleanup
deriving DecidableEq, Repr

/-- WorkerMessage from types.ts: id, type, data, timestamp.  The interface
declares NO priority field; the pool nevertheless reads `task.priority`
during queue insertion, which evaluates to `undefined` at runtime.  That
absent property is embedded as an `Option Int` that every message built by
the pool leaves at `none`. -/
structure WMessage where
  id : String
  type : WMType
  data : String
  timestamp : Int
  priority : Option Int
deriving DecidableEq, Repr

/-- The JavaScript comparison `x < n` where `x` may be `undefined`:
`undefined < n` is `false` for every number `n`. -/
def jsLt : Option Int → Int → Bool
  | none, _ => false
  | some a, b => a < b

/-- WorkerMetrics from types.ts. -/
structure WMetrics where
  workerId : String
  cpuUsage : ℚ
  memoryUsage : ℚ
  messageLatency : Int
  tasksCompleted : Nat
  tasksFailed : Nat
  uptime : ℚ
  lastActivity : Int
deriving DecidableEq, Repr

/-- An entry of TrainingWorkerPool.taskQueue: the task id and the
WorkerMessage.  The resolve, reject and timeout members are modelled by
the settlement events of the transition functions and by timeoutFire. -/
structure QTask where
  id : String
  task : WMessage
deriving DecidableEq, Repr

/-- The WorkerPoolConfig fields the pool reads (trainingWorker.ts lines
647-656). -/
structure WorkerPoolConfig where
  maxWorkers : Nat
  maxMemoryPerWorker : ℚ
  workerTimeout : Nat
deriving DecidableEq, Repr

/-- The mutable state of a TrainingWorkerPool: the keys of the workers
Map, the available and busy Sets (JavaScript Sets iterate in insertion
order, embedded as duplicate-free lists), the task queue, the metrics Map
(association list keyed by the pool-side worker id), and the shutdown
flag. -/
structure PoolState where
  workers : List String
  available : List String
  busy : List String
  taskQueue : List QTask
  metrics : List (String × WMetrics)
  isShuttingDown : Bool
  config : WorkerPoolConfig
deriving DecidableEq, Repr

/-- JavaScript Set.add: appends the element unless already present. -/
def setAdd (l : List String) (x : String) : List String :=
  if x ∈ l then l else l ++ [x]

/-- JavaScript Set.delete. -/
def setDelete (l : List String) (x : String) : List String :=
  l.filter (fun y => y ≠ x)

/-- Map.get on the metrics map. -/
def mfind (ms : List (String × WMetrics)) (wid : String) : Option WMetrics :=
  (ms.find? (fun p => p.1 == wid)).map Prod.snd

/-- Map.set on the metrics map: replace the value at the key, or insert. -/
def mset (ms : List (String × WMetrics)) (wid : String) (v : WMetrics) :
    List (String × WMetrics) :=
  if ms.any (fun p => p.1 == wid) then
    ms.map (fun p => if p.1 == wid then (p.1, v) else p)
  else ms ++ [(wid, v)]

/-- In-place mutation of the record stored at a key (no-op when the key is
absent, mirroring the `if (metrics)` guards in the source). -/
def mupd (ms : List (String × WMetrics)) (wid : String)
    (f : WMetrics → WMetrics) : List (String × WMetrics) :=
  ms.map (fun p => if p.1 == wid then (p.1, f p.2) else p)

/-- The metrics record createWorker installs for a fresh worker
(trainingWorker.ts lines 684-693): all counters zero, lastActivity set to
the current time. -/
def freshMetrics (wid : String) (now : Int) : WMetrics :=
  { workerId := wid, cpuUsage := 0, memoryUsage := 0, messageLatency := 0,
    tasksCompleted := 0, tasksFailed := 0, uptime := 0, lastActivity := now }

/-- createWorker (lines 679-713): installs fresh metrics, registers the
worker and adds it to the available set.  The randomly generated id is
supplied as a parameter. -/
def createWorker (s : PoolState) (wid : String) (now : Int) : PoolState :=
  { s with metrics := mset s.metrics wid (freshMetrics wid now),
           workers := s.workers ++ [wid],
           available := setAdd s.available wid }

/-- Deterministic stand-in for the generated worker ids. -/
def workerName (i : Nat) : String := "worker-" ++ toString i

/-- A pool with no workers and empty state under the given config. -/
def emptyPool (cfg : WorkerPoolConfig) : PoolState :=
  { workers := [], available := [], busy := [], taskQueue := [],
    metrics := [], isShuttingDown := false, config := cfg }

/-- initializePool (lines 672-677): creates maxWorkers workers. -/
def initializePool (cfg : WorkerPoolConfig) (now : Int) : PoolState :=
  (List.range cfg.maxWorkers).foldl
    (fun st i => createWorker st (workerName i) now) (emptyPool cfg)

/-- The TrainingWorkerPool constructor (lines 647-670).  It performs no
validation of the configuration values and has no failure outcome; it
initializes the workers exactly when the USE_WORKERS toggle is true. -/
def mkPool (cfg : WorkerPoolConfig) (useWorkers : Bool) (now : Int) :
    PoolState :=
  if useWorkers then initializePool cfg now else emptyPool cfg

/-- Observable events a pool transition emits: settling the promise tied
to a task id, posting a task to a worker, or forwarding a progress
update. -/
inductive PoolEvent
  | settled (taskId : String) (success : Bool)
      (payload : Option String) (errMsg : Option String)
  | dispatched (workerId : String) (taskId : String)
  | progressEmitted (taskId : String)
deriving DecidableEq, Repr

/-- processQueue (lines 817-834): a single-shot dispatch.  If the queue
and the available set are both nonempty, the queue head is shifted out of
the queue and posted to the first available worker, which moves to the
busy set.  Dispatched tasks are therefore no longer present in
taskQueue. -/
def processQueue (s : PoolState) : PoolState × List PoolEvent :=
  match s.taskQueue, s.available with
  | [], _ => (s, [])
  | _, [] => (s, [])
  | q :: rest, wid :: _ =>
      ({ s with taskQueue := rest,
                available := setDelete s.available wid,
                busy := setAdd s.busy wid },
       [PoolEvent.dispatched wid q.id])

/-- The messages a worker can deliver to the pool, as discriminated by
handleWorkerMessage: a progress update (type progress), a metrics
snapshot (type metrics, carrying a full WorkerMetrics record), or a
terminal WorkerResponse. -/
inductive PoolInMsg
  | progressUpd (id : String) (timestamp : Int)
  | metricsUpd (data : WMetrics) (timestamp : Int)
  | response (id : String) (success : Bool)
      (data : Option String) (errMsg : Option String) (timestamp : Int)
deriving DecidableEq, Repr

/-- The timestamp field carried by every worker-to-pool message. -/
def msgTimestamp : PoolInMsg → Int
  | .progressUpd _ ts => ts
  | .metricsUpd _ ts => ts
  | .response _ _ _ _ ts => ts

/-- handleWorkerMessage (lines 715-760).  It first stamps lastActivity
and messageLatency on the metrics record of the sending worker.  A
progress message is forwarded.  A metrics message is merged with the
spread `{ ...metrics, ...message.data }`; since message.data is a full
WorkerMetrics record, every field of the stored record, including the
pool-owned task counters, is overwritten by the worker-reported values.
Any other message reaches the completion branch, which looks the task id
up in taskQueue: when found, the entry is removed, the worker moves from
busy to available, the counters are bumped, the promise is settled and
the queue is processed; when not found (the case for every task that was
actually dispatched, since processQueue removed it) nothing further
happens. -/
def handleWorkerMessage (s : PoolState) (wid : String) (msg : PoolInMsg)
    (now : Int) : PoolState × List PoolEvent :=
  let s1 := { s with metrics := mupd s.metrics wid (fun m =>
    { m with lastActivity := now,
             messageLatency := now - msgTimestamp msg }) }
  match msg with
  | .progressUpd id _ => (s1, [PoolEvent.progressEmitted id])
  | .metricsUpd data _ =>
      ({ s1 with metrics := mset s1.metrics wid data }, [])
  | .response id success data errMsg _ =>
      match s1.taskQueue.findIdx? (fun q => q.id == id) with
      | none => (s1, [])
      | some i =>
          let s2 := { s1 with
            taskQueue := s1.taskQueue.eraseIdx i,
            available := setAdd s1.available wid,
            busy := setDelete s1.busy wid,
            metrics := mupd s1.metrics wid (fun m =>
              if success then { m with tasksCompleted := m.tasksCompleted + 1 }
              else { m with tasksFailed := m.tasksFailed + 1 }) }
          let settledEv := PoolEvent.settled id success
            (if success then data else none)
            (if success then none else some (errMsg.getD ("Unknown error")))
          let r := processQueue s2
          (r.1, settledEv :: r.2)

/-- The per-task timeout callback registered by execute (lines 789-795):
when it fires it rejects the task with the message Task timeout, but only
if the task is still found in taskQueue; a task that was dispatched is
absent from the queue and the callback does nothing. -/
def timeoutFire (s : PoolState) (taskId : String) :
    PoolState × Option PoolEvent :=
  match s.taskQueue.findIdx? (fun q => q.id == taskId) with
  | none => (s, none)
  | some i =>
      ({ s with taskQueue := s.taskQueue.eraseIdx i },
       some (PoolEvent.settled taskId false none (some ("Task timeout"))))

/-- The pluggable task executor backing train, evaluate and predict: a
thrown JavaScript exception is an `Except.error` carrying its message. -/
def Executor := WMType → String → Except String String

/-- The errors execute can surface, separating the documented kinds from
a raw exception propagated unwrapped from the executor. -/
inductive ExecError
  | poolShuttingDown
  | unknownTaskType (t : WMType)
  | rawExecutor (e : String)
  | workerExecution (e : String)
  | taskTimeout
deriving DecidableEq, Repr

/-- executeInMainThread (lines 836-848): the fallback path used when the
pool is disabled.  Train, evaluate and predict call the executor directly
with no try/catch, so an executor exception propagates to the caller
unwrapped (marked rawExecutor here); evaluateModel and predictText
re-throw with a prefixed message (lines 519 and 565).  Every other task
type throws Unknown task type. -/
def executeInMainThread (exec : Executor) (t : WMType) (d : String) :
    Except ExecError String :=
  match t with
  | .train => (exec .train d).mapError ExecError.rawExecutor
  | .evaluate => (exec .evaluate d).mapError
      (fun e => ExecError.rawExecutor ("Evaluation failed: " ++ e))
  | .predict => (exec .predict d).mapError
      (fun e => ExecError.rawExecutor ("Prediction failed: " ++ e))
  | t' => .error (ExecError.unknownTaskType t')

/-- The enabled path of execute after the shutdown gate (lines 779-814):
builds the WorkerMessage (which carries no priority property), inserts
the queue entry before the first entry whose `task.priority` is `<` the
new priority - `task.priority` is undefined on every stored message, so
the comparison is always false and the entry is appended - and runs
processQueue. -/
def enqueueTask (s : PoolState) (t : WMType) (d : String) (priority : Int)
    (taskId : String) (now : Int) : PoolState × List PoolEvent :=
  let msg : WMessage :=
    { id := taskId, type := t, data := d, timestamp := now, priority := none }
  let qt : QTask := { id := taskId, task := msg }
  let queue' :=
    match s.taskQueue.findIdx? (fun q => jsLt q.task.priority priority) with
    | none => s.taskQueue ++ [qt]
    | some i => s.taskQueue.take i ++ qt :: s.taskQueue.drop i
  processQueue { s with taskQueue := queue' }

/-- The outcome of a call to execute: a value settled synchronously on
the fallback path, or a pending promise together with the new pool state
and the events emitted while enqueueing. -/
inductive ExecResult
  | immediate (r : String)
  | pending (s' : PoolState) (events : List PoolEvent)

/-- execute (lines 770-815): when the USE_WORKERS toggle is off it
forwards to executeInMainThread; otherwise it rejects submissions while
shutting down and else enqueues the task. -/
def execute (useWorkers : Bool) (exec : Executor) (s : PoolState)
    (t : WMType) (d : String) (priority : Int) (taskId : String)
    (now : Int) : Except ExecError ExecResult :=
  if useWorkers = false then
    (executeInMainThread exec t d).map ExecResult.immediate
  else if s.isShuttingDown then
    .error ExecError.poolShuttingDown
  else
    let r := enqueueTask s t d priority taskId now
    .ok (ExecResult.pending r.1 r.2)

/-- The counts returned by getStatus (lines 946-962). -/
structure PoolStatus where
  totalWorkers : Nat
  availableWorkers : Nat
  busyWorkers : Nat
  queuedTasks : Nat
deriving DecidableEq, Repr

/-- getStatus (lines 946-962). -/
def getStatus (s : PoolState) : PoolStatus :=
  { totalWorkers := s.workers.length,
    availableWorkers := s.available.length,
    busyWorkers := s.busy.length,
    queuedTasks := s.taskQueue.length }

/-- terminate (lines 1009-1031): sets the shutdown flag, awaits the queue
drain (queued tasks are spliced by their timers), terminates every worker
and clears all state; the embedding is the state once the returned
promise has resolved. -/
def terminate (s : PoolState) : PoolState :=
  { s with isShuttingDown := true, workers := [], available := [],
           busy := [], taskQueue := [], metrics := [] }

/-- JavaScript numbers as needed by the throughput computations: a finite
rational, the two infinities, or NaN. -/
inductive JsNum
  | fin (q : ℚ)
  | inf
  | negInf
  | nan
deriving DecidableEq, Repr

/-- JavaScript division on these values: x / 0 is NaN when x = 0 and a
signed infinity otherwise. -/
def jsDiv (a b : ℚ) : JsNum :=
  if b = 0 then (if a = 0 then .nan else if 0 < a then .inf else .negInf)
  else .fin (a / b)

/-- JavaScript falsiness of a number: 0 and NaN are falsy. -/
def JsNum.falsy : JsNum → Bool
  | .fin q => q == 0
  | .nan => true
  | _ => false

/-- The JavaScript expression `x || 0`. -/
def jsOrZero (x : JsNum) : JsNum := if x.falsy then .fin 0 else x

/-- Sum of tasksCompleted over the metrics map. -/
def totalCompleted (ms : List (String × WMetrics)) : Nat :=
  (ms.map (fun p => p.2.tasksCompleted)).sum

/-- Sum of uptime (milliseconds) over the metrics map. -/
def totalUptime (ms : List (String × WMetrics)) : ℚ :=
  (ms.map (fun p => p.2.uptime)).sum

/-- TrainingWorkerPool.calculateThroughput (lines 916-929): the pair of
`totalTasks / (totalTime / 1000) || 0` and
`totalTime / totalTasks || 0`. -/
def calculateThroughput (ms : List (String × WMetrics)) : JsNum × JsNum :=
  (jsOrZero (jsDiv (totalCompleted ms) (totalUptime ms / 1000)),
   jsOrZero (jsDiv (totalUptime ms) (totalCompleted ms)))

/-- WorkerPerformanceMonitor.calculateDerivedMetrics (lines 1499-1519):
tasksPerSecond is `totalTime > 0 ? totalTasks / (totalTime / 1000) : 0`,
an explicit guard against division by zero. -/
def derivedTasksPerSecond (ms : List (String × WMetrics)) : JsNum :=
  if 0 < totalUptime ms then
    .fin ((totalCompleted ms : ℚ) / (totalUptime ms / 1000))
  else .fin 0

/-- checkWorkerHealth (lines 984-1004): one issue per violated rule, in
source order; the numeric interpolation inside the issue strings is
elided.  The boolean result is `issues.length === 0`. -/
def checkWorkerHealth (cfg : WorkerPoolConfig) (now : Int) (m : WMetrics) :
    Bool × List String :=
  let issues :=
    (if cfg.maxMemoryPerWorker < m.memoryUsage
     then ["Memory usage exceeds limit"] else []) ++
    (if 60000 < now - m.lastActivity
     then ["No activity for over 1 minute"] else []) ++
    (if 0 < m.tasksCompleted + m.tasksFailed ∧
        (1 : ℚ)/10 < (m.tasksFailed : ℚ) /
          ((m.tasksCompleted : ℚ) + (m.tasksFailed : ℚ))
     then ["High error rate detected"] else [])
  (issues.length == 0, issues)

/-- healthCheck (lines 967-982): evaluates checkWorkerHealth on every
metrics entry. -/
def healthCheck (s : PoolState) (now : Int) :
    List (String × Bool × List String) :=
  s.metrics.map (fun p => (p.1, checkWorkerHealth s.config now p.2))

/-- WorkerEnvironment from worker-config.ts. -/
structure WorkerEnvironment where
  USE_WORKERS : Bool
  MAX_WORKERS : Int
  WORKER_MEMORY_LIMIT : Int
  WORKER_TIMEOUT : Int
  ENABLE_METRICS : Bool
  ENABLE_CHECKPOINTS : Bool
  LOG_LEVEL : String
deriving DecidableEq, Repr

/-- validateWorkerConfig (worker-config.ts, concatenated source lines
1148-1174): collects one error message per out-of-range field and reports
isValid as `errors.length === 0`.  It is a standalone helper; nothing in
the pool constructor calls it. -/
def validateWorkerConfig (c : WorkerEnvironment) : Bool × List String :=
  let errors :=
    (if c.MAX_WORKERS < 1 ∨ 16 < c.MAX_WORKERS
     then ["MAX_WORKERS must be between 1 and 16"] else []) ++
    (if c.WORKER_MEMORY_LIMIT < 128 ∨ 2048 < c.WORKER_MEMORY_LIMIT
     then ["WORKER_MEMORY_LIMIT must be between 128MB and 2048MB"] else []) ++
    (if c.WORKER_TIMEOUT < 30000 ∨ 1800000 < c.WORKER_TIMEOUT
     then ["WORKER_TIMEOUT must be between 30 seconds and 30 minutes"]
     else []) ++
    (if c.LOG_LEVEL ∉ (["debug", "info", "warn", "error"] : List String)
     then ["LOG_LEVEL must be one of: debug, info, warn, error"] else [])
  (errors.length == 0, errors)

/-- The computation the worker-side switch performs for one message
(handleWorkerTask, lines 102-152): train, evaluate and predict delegate
to the executor (evaluate and predict re-throw with a prefixed message);
stop, status and cleanup answer locally and never throw. -/
def workerCompute (exec : Executor) (t : WMType) (d : String) :
    Except String String :=
  match t with
  | .train => exec .train d
  | .evaluate => (exec .evaluate d).mapError
      (fun e => "Evaluation failed: " ++ e)
  | .predict => (exec .predict d).mapError
      (fun e => "Prediction failed: " ++ e)
  | .stop => .ok ("stopped")
  | .status => .ok ("status")
  | .cleanup => .ok ("cleaned")

/-- The Response message the worker posts for one incoming task message
(lines 102-167): the catch converts any thrown error into a
success=false response carrying the error message. -/
structure WResponse where
  id : String
  success : Bool
  data : Option String
  errMsg : Option String
deriving DecidableEq, Repr

/-- The worker message handler as a function from the incoming message to
the terminal Response (lines 102-167). -/
def workerRespond (exec : Executor) (msg : WMessage) : WResponse :=
  match workerCompute exec msg.type msg.data with
  | .ok r => { id := msg.id, success := true, data := some r, errMsg := none }
  | .error e =>
      { id := msg.id, success := false, data := none, errMsg := some e }

/-- The sum of the two pool-owned task counters of a metrics record. -/
def counterSum (m : WMetrics) : Nat := m.tasksCompleted + m.tasksFailed

/-! Concrete scenario states used to evaluate the code at the inputs the
claims are about. -/

/-- An in-range configuration with one worker. -/
def cfg1 : WorkerPoolConfig :=
  { maxWorkers := 1, maxMemoryPerWorker := 512, workerTimeout := 300000 }

/-- An executor that always succeeds. -/
def exec0 : Executor := fun _ _ => .ok ("ok")

/-- An executor that always throws. -/
def badExec : Executor := fun _ _ => .error ("boom")

/-- A freshly constructed enabled pool with one worker. -/
def poolA : PoolState := mkPool cfg1 true 0

/-- The pool after task t1 has been dispatched to worker-0: the queue is
empty again and worker-0 is busy. -/
def sDispatched : PoolState :=
  (enqueueTask poolA .train ("d") 0 ("t1") 5).1

/-- Step 1 of the priority scenario: t0 occupies the only worker. -/
def sC3a : PoolState := (enqueueTask poolA .train ("d0") 0 ("t0") 1).1

/-- Step 2: task tA with priority 5 is queued. -/
def sC3b : PoolState := (enqueueTask sC3a .train ("da") 5 ("tA") 2).1

/-- Step 3: task tB with priority 10 is queued after tA. -/
def sC3c : PoolState := (enqueueTask sC3b .train ("db") 10 ("tB") 3).1

/-- Counter scenario, step 1: t1 is dispatched to worker-0. -/
def sC4a : PoolState := (enqueueTask poolA .train ("dA") 0 ("t1") 1).1

/-- Counter scenario, step 2: t2 is enqueued and stays queued. -/
def sC4b : PoolState := (enqueueTask sC4a .train ("dB") 0 ("t2") 2).1

/-- Counter scenario, step 3: a success Response carrying the id of the
still-queued task t2 is processed, so the completion branch fires and
tasksCompleted of worker-0 becomes 1. -/
def rC4c : PoolState × List PoolEvent :=
  handleWorkerMessage sC4b ("worker-0")
    (.response ("t2") true (some ("r")) none 3) 4

/-- The periodic metrics snapshot the worker-side monitor emits (lines
58-67): the task counters are hard-coded to zero. -/
def zeroSnap : WMetrics :=
  { workerId := ("worker-x"), cpuUsage := 1, memoryUsage := 50,
    messageLatency := 0, tasksCompleted := 0, tasksFailed := 0,
    uptime := 2000, lastActivity := 5 }

/-- Counter scenario, step 4: the metrics snapshot is merged, resetting
the pool-side counters. -/
def sC4d : PoolState :=
  (handleWorkerMessage rC4c.1 ("worker-0") (.metricsUpd zeroSnap 5) 6).1

/-- An out-of-range pool configuration (17 workers). -/
def badCfg : WorkerPoolConfig :=
  { maxWorkers := 17, maxMemoryPerWorker := 512, workerTimeout := 300000 }

/-- The same out-of-range configuration as a WorkerEnvironment. -/
def badCfgEnv : WorkerEnvironment :=
  { USE_WORKERS := true, MAX_WORKERS := 17, WORKER_MEMORY_LIMIT := 512,
    WORKER_TIMEOUT := 300000, ENABLE_METRICS := true,
    ENABLE_CHECKPOINTS := true, LOG_LEVEL := ("info") }

/-- A metrics record with one completed task and zero uptime. -/
def mInf : WMetrics :=
  { workerId := ("w"), cpuUsage := 0, memoryUsage := 0,
    messageLatency := 0, tasksCompleted := 1, tasksFailed := 0,
    uptime := 0, lastActivity := 0 }

/-! Helper lemmas. -/

/-- Folding createWorker over a list of indices adds one worker per
index. -/
theorem foldl_createWorker_length (now : Int) (l : List Nat) (s : PoolState) :
    ((l.foldl (fun st i => createWorker st (workerName i) now) s)).workers.length
      = s.workers.length + l.length := by
  induction l generalizing s with
  | nil => rfl
  | cons a t ih =>
      rw [List.foldl_cons, ih]
      simp only [createWorker, List.length_append, List.length_cons,
        List.length_nil]
      omega

/-! Claim theorems. -/

/-- Claim C1 (code-bug evidence).  In a pool of one worker, execute
dispatches task t1 to worker-0 and processQueue removes t1 from
taskQueue.  When the Response for t1 arrives, handleWorkerMessage looks
the id up in taskQueue, finds nothing, and therefore emits no settlement
event, leaves worker-0 in the busy set and the available set empty, and
dispatches nothing.  The claim says the promise is settled with the
response data, the worker moves back to available, and the next queued
task is dispatched. -/
theorem c1_response_for_dispatched_task_dropped :
    execute true exec0 poolA .train ("d") 0 ("t1") 5
      = .ok (ExecResult.pending sDispatched
          [PoolEvent.dispatched ("worker-0") ("t1")]) ∧
    (handleWorkerMessage sDispatched ("worker-0")
        (.response ("t1") true (some ("r")) none 6) 7).2 = [] ∧
    (handleWorkerMessage sDispatched ("worker-0")
        (.response ("t1") true (some ("r")) none 6) 7).1.busy
      = [("worker-0")] ∧
    (handleWorkerMessage sDispatched ("worker-0")
        (.response ("t1") true (some ("r")) none 6) 7).1.available = [] :=
  ⟨rfl, rfl, rfl, rfl⟩

/-- Claim C2 (code-bug evidence).  Task t1 was dispatched to worker-0,
which never responds.  When the per-task timer fires, the callback looks
t1 up in taskQueue; since processQueue removed it at dispatch, the
callback finds nothing: the state is unchanged and no Timeout rejection
is emitted, so the promise of the caller stays pending forever.  The
claim says it is rejected with a Timeout error no later than the task
timeout after submission. -/
theorem c2_timeout_does_not_reject_dispatched_task :
    (enqueueTask poolA .train ("d") 0 ("t1") 5).2
      = [PoolEvent.dispatched ("worker-0") ("t1")] ∧
    timeoutFire sDispatched ("t1") = (sDispatched, none) :=
  ⟨rfl, rfl⟩

/-- Claim C3 (code-bug evidence).  With the only worker busy, task tA
with priority 5 is submitted, then task tB with priority 10.  The
insertion compares the nonexistent priority property of the stored
WorkerMessage, so tB is appended after tA, and when a worker becomes
available, processQueue dispatches tA - the earlier, strictly
lower-priority task - first.  The claim says the strictly higher
priority task is dispatched first. -/
theorem c3_priority_ignored_queue_is_fifo :
    sC3c.taskQueue.map QTask.id = [("tA"), ("tB")] ∧
    (processQueue { sC3c with available := [("worker-0")], busy := [] }).2
      = [PoolEvent.dispatched ("worker-0") ("tA")] :=
  ⟨rfl, rfl⟩

/-- Claim C4 (code-bug evidence).  After the pool processes a success
Response for worker-0 (here one whose id matches the still-queued task
t2, the only way the completion branch can fire), the metrics record of
worker-0 has tasksCompleted + tasksFailed = 1.  Processing the next
periodic metrics snapshot - which hard-codes tasksCompleted = 0 and
tasksFailed = 0 - overwrites the pool-owned counters via the spread
merge, and the sum drops back to 0.  The claim says the sum never
decreases across any sequence of pool-processed worker messages. -/
theorem c4_metrics_message_resets_counters :
    rC4c.2 = [PoolEvent.settled ("t2") true (some ("r")) none] ∧
    (mfind rC4c.1.metrics ("worker-0")).map counterSum = some 1 ∧
    (mfind sC4d.metrics ("worker-0")).map counterSum = some 0 :=
  ⟨rfl, rfl, rfl⟩

/-- Claim C5 (counterexample).  With maxWorkers = 17, outside the
documented 1-16 range, the constructor embedding succeeds - the source
constructor contains no validation and no throw - and 17 workers are
started; validateWorkerConfig itself does classify the configuration as
invalid.  This refutes the claim that construction raises
InvalidConfiguration and starts no workers. -/
theorem c5_counterexample :
    (validateWorkerConfig badCfgEnv).1 = false ∧
    (mkPool badCfg true 0).workers.length = 17 :=
  ⟨rfl, rfl⟩

/-- Claim C5 (amended).  validateWorkerConfig reports isValid exactly
when every field is inside the documented bounds (and LOG_LEVEL is one
of the four levels), but it is never invoked by the constructor: pool
construction performs no validation, never raises, and starts
cfg.maxWorkers workers whenever the worker toggle is on, regardless of
bounds. -/
theorem c5_validation_is_advisory_only (c : WorkerEnvironment)
    (cfg : WorkerPoolConfig) (u : Bool) (now : Int) :
    ((validateWorkerConfig c).1 = true ↔
      (¬(c.MAX_WORKERS < 1 ∨ 16 < c.MAX_WORKERS) ∧
       ¬(c.WORKER_MEMORY_LIMIT < 128 ∨ 2048 < c.WORKER_MEMORY_LIMIT) ∧
       ¬(c.WORKER_TIMEOUT < 30000 ∨ 1800000 < c.WORKER_TIMEOUT) ∧
       c.LOG_LEVEL ∈ (["debug", "info", "warn", "error"] : List String))) ∧
    (mkPool cfg u now).workers.length = (if u then cfg.maxWorkers else 0) := by
  constructor
  · unfold validateWorkerConfig
    split_ifs with h1 h2 h3 h4 <;> simp_all
  · cases u <;>
      simp [mkPool, initializePool, emptyPool, foldl_createWorker_length]

/-- Claim C6 (counterexample).  On the pool-disabled path, an executor
that throws makes execute reject with the raw executor exception,
unwrapped: not a TaskTimeout, not PoolShuttingDown, and not a
WorkerExecutionError built from a worker response. -/
theorem c6_counterexample :
    execute false badExec poolA .train ("d") 0 ("t1") 0
      = .error (ExecError.rawExecutor ("boom")) ∧
    ExecError.rawExecutor ("boom") ≠ ExecError.taskTimeout ∧
    ExecError.rawExecutor ("boom") ≠ ExecError.poolShuttingDown ∧
    ExecError.rawExecutor ("boom") ≠ ExecError.workerExecution ("boom") :=
  ⟨rfl, by decide, by decide, by decide⟩

/-- Claim C6 (amended).  On the worker path the message handler catches
every executor error, so each worker Response is either success with no
error or failure carrying a structured error message; on the
pool-disabled fallback path, a train-task exception from the executor
propagates to the caller exactly as thrown. -/
theorem c6_worker_path_wraps_fallback_propagates (exec : Executor)
    (msg : WMessage) (d : String) :
    (((workerRespond exec msg).success = true ∧
        (workerRespond exec msg).errMsg = none) ∨
      ((workerRespond exec msg).success = false ∧
        (workerRespond exec msg).errMsg ≠ none)) ∧
    executeInMainThread exec .train d
      = (exec .train d).mapError ExecError.rawExecutor := by
  refine ⟨?_, rfl⟩
  cases h : workerCompute exec msg.type msg.data <;>
    simp [workerRespond, h]

/-- Claim C7 (confirmed).  After terminate resolves, getStatus reports
zero workers, every subsequent execute on the worker-enabled path is
rejected with the pool-shutting-down error, and terminating again
returns the same terminated state (idempotence). -/
theorem c7_terminate_contract (s : PoolState) (exec : Executor)
    (t : WMType) (d : String) (p : Int) (tid : String) (now : Int) :
    (getStatus (terminate s)).totalWorkers = 0 ∧
    execute true exec (terminate s) t d p tid now
      = .error ExecError.poolShuttingDown ∧
    terminate (terminate s) = terminate s :=
  ⟨rfl, rfl, rfl⟩

/-- Claim C8 (counterexample).  On a metrics set with one completed task
and zero total uptime, the pool throughput computation
`totalTasks / (totalTime / 1000) || 0` yields Infinity, because
Infinity is truthy and survives the `|| 0` guard; the claim says the
result is 0 whenever the total uptime is zero. -/
theorem c8_counterexample :
    (calculateThroughput [(("w"), mInf)]).1 = JsNum.inf ∧
    JsNum.inf ≠ JsNum.fin 0 := by
  refine ⟨?_, by simp⟩
  norm_num [calculateThroughput, totalCompleted, totalUptime, mInf,
    jsDiv, jsOrZero, JsNum.falsy]

/-- Claim C8 (amended).  The monitor computation calculateDerivedMetrics
is properly guarded: its tasksPerSecond is never Infinity or NaN and is
0 whenever the total uptime is zero.  The pool computation
calculateThroughput is guarded only against the 0/0 case: with zero
total uptime it yields 0 exactly when no tasks are completed, and
Infinity otherwise. -/
theorem c8_monitor_guarded_pool_unguarded (ms : List (String × WMetrics)) :
    derivedTasksPerSecond ms ≠ JsNum.inf ∧
    derivedTasksPerSecond ms ≠ JsNum.nan ∧
    (totalUptime ms = 0 →
      derivedTasksPerSecond ms = JsNum.fin 0 ∧
      (calculateThroughput ms).1
        = (if totalCompleted ms = 0 then JsNum.fin 0 else JsNum.inf)) := by
  refine ⟨?_, ?_, fun h => ⟨?_, ?_⟩⟩
  · unfold derivedTasksPerSecond; split <;> simp
  · unfold derivedTasksPerSecond; split <;> simp
  · simp [derivedTasksPerSecond, h]
  · have h1000 : totalUptime ms / 1000 = 0 := by rw [h]; norm_num
    by_cases hc : totalCompleted ms = 0
    · simp [calculateThroughput, jsDiv, jsOrZero, JsNum.falsy, h1000, hc]
    · have hpos : (0 : ℚ) < (totalCompleted ms : ℚ) := by
        exact_mod_cast Nat.pos_of_ne_zero hc
      simp [calculateThroughput, jsDiv, jsOrZero, JsNum.falsy, h1000, hc,
        hpos, Nat.cast_eq_zero]

/-- Claim C8 (witness for the amended theorem): instantiated at a
one-worker metrics set with zero uptime and one completed task. -/
theorem c8_monitor_guarded_pool_unguarded_witness :
    derivedTasksPerSecond [(("w"), mInf)] = JsNum.fin 0 ∧
    (calculateThroughput [(("w"), mInf)]).1
      = (if totalCompleted [(("w"), mInf)] = 0 then JsNum.fin 0
         else JsNum.inf) :=
  (c8_monitor_guarded_pool_unguarded [(("w"), mInf)]).2.2
    (by norm_num [totalUptime, mInf])

/-- Claim C9 (confirmed).  checkWorkerHealth reports a worker healthy
exactly when its issue list is empty, and that holds exactly when none
of the three documented conditions is met: memory usage above the
configured per-worker limit, last activity more than 60 seconds ago, or
at least one completed-or-failed task with a failure ratio above 10
percent. -/
theorem c9_healthy_iff_no_issue_conditions (cfg : WorkerPoolConfig)
    (now : Int) (m : WMetrics) :
    ((checkWorkerHealth cfg now m).1 = true ↔
      (checkWorkerHealth cfg now m).2 = []) ∧
    ((checkWorkerHealth cfg now m).1 = true ↔
      (¬(cfg.maxMemoryPerWorker < m.memoryUsage) ∧
       ¬(60000 < now - m.lastActivity) ∧
       ¬(0 < m.tasksCompleted + m.tasksFailed ∧
         (1 : ℚ)/10 < (m.tasksFailed : ℚ) /
           ((m.tasksCompleted : ℚ) + (m.tasksFailed : ℚ))))) := by
  unfold checkWorkerHealth
  split_ifs with h1 h2 h3 <;> simp_all

/-- Claim C10 (confirmed).  With the pool disabled, execute rejects the
stop, status and cleanup kinds with the Unknown-task-type error, while
the worker-side handler answers the same three kinds with a success
Response on the enabled path. -/
theorem c10_control_kinds_fail_on_fallback_succeed_in_worker
    (exec : Executor) (s : PoolState) (d : String) (p : Int)
    (tid : String) (now : Int) (mid : String) (ts : Int) :
    execute false exec s .stop d p tid now
        = .error (ExecError.unknownTaskType .stop) ∧
    execute false exec s .status d p tid now
        = .error (ExecError.unknownTaskType .status) ∧
    execute false exec s .cleanup d p tid now
        = .error (ExecError.unknownTaskType .cleanup) ∧
    (workerRespond exec
        { id := mid, type := .stop, data := d, timestamp := ts,
          priority := none }).success = true ∧
    (workerRespond exec
        { id := mid, type := .status, data := d, timestamp := ts,
          priority := none }).success = true ∧
    (workerRespond exec
        { id := mid, type := .cleanup, data := d, timestamp := ts,
          priority := none }).success = true :=
  ⟨rfl, rfl, rfl, rfl, rfl, rfl⟩

end TrainingWorker
